import Mathlib

/-!
Verification development for `generate_icon.py`, a one-shot script that draws a
notification-bell icon onto a square RGBA canvas and writes it to disk.

The script is embedded shallowly:

* Python integers become `Int`; Python's floor division `//` (with positive
  divisors, as used throughout the script) coincides with `Int`'s `/`
  (Euclidean division), which we use directly.
* Each local geometry variable of `create_notification_bell_icon` becomes a
  top-level function of `size`, with the same name and the same formula.
* The PIL drawing calls are recorded as a list of drawing commands (`DrawOp`)
  carried by the produced image (`Img`), in the order the script issues them.
* The filesystem interaction (`os.path.dirname`, `os.makedirs(…, exist_ok=True)`)
  is modelled over a directory-only filesystem: a list of directories, each a
  list of path components.
-/

namespace GenerateIcon

/-- A fill color as passed to PIL: either a named color string (the script uses
`'white'`) or an RGBA tuple. -/
inductive Color where
  | named (s : String)
  | rgba (r g b a : Nat)
deriving DecidableEq

/-- One PIL drawing call issued by the script, with the arguments it was given.
Two-point `xy` arguments are the bounding boxes PIL receives. -/
inductive DrawOp where
  | roundedRectangle (xy : (Int × Int) × (Int × Int)) (radius : Int) (fill : Color)
  | polygon (points : List (Int × Int)) (fill : Color)
  | rectangle (xy : (Int × Int) × (Int × Int)) (fill : Color)
  | ellipse (xy : (Int × Int) × (Int × Int)) (fill : Color)
deriving DecidableEq

/-- The in-memory image: the mode and size handed to `Image.new`, the initial
fill color of every pixel, and the sequence of drawing commands applied. -/
structure Img where
  mode : String
  xy : Int × Int
  background : Nat × Nat × Nat × Nat
  ops : List DrawOp
deriving DecidableEq

/-- `corner_radius = size // 5` (line 18). -/
def corner_radius (size : Int) : Int := size / 5

/-- `bg_color = (59, 130, 246, 255)` (line 19). -/
def bg_color : Color := .rgba 59 130 246 255

/-- `center_x = size // 2` (line 23). -/
def center_x (size : Int) : Int := size / 2

/-- `center_y = size // 2` (line 24). -/
def center_y (size : Int) : Int := size / 2

/-- `bell_width = size // 3` (line 25). -/
def bell_width (size : Int) : Int := size / 3

/-- `bell_height = size // 3` (line 26). -/
def bell_height (size : Int) : Int := size / 3

/-- `bell_top_y = center_y - bell_height // 2` (line 29). -/
def bell_top_y (size : Int) : Int := center_y size - bell_height size / 2

/-- `bell_bottom_y = center_y + bell_height // 4` (line 30). -/
def bell_bottom_y (size : Int) : Int := center_y size + bell_height size / 4

/-- `bell_left_x = center_x - bell_width // 2` (line 31). -/
def bell_left_x (size : Int) : Int := center_x size - bell_width size / 2

/-- `bell_right_x = center_x + bell_width // 2` (line 32). -/
def bell_right_x (size : Int) : Int := center_x size + bell_width size / 2

/-- `bell_points` (lines 35-40): top-left, top-right, bottom-right, bottom-left. -/
def bell_points (size : Int) : List (Int × Int) :=
  [(center_x size - bell_width size / 3, bell_top_y size),
   (center_x size + bell_width size / 3, bell_top_y size),
   (bell_right_x size, bell_bottom_y size),
   (bell_left_x size, bell_bottom_y size)]

/-- `handle_width = bell_width // 6` (line 44). -/
def handle_width (size : Int) : Int := bell_width size / 6

/-- `handle_height = bell_height // 6` (line 45). -/
def handle_height (size : Int) : Int := bell_height size / 6

/-- `handle_y = bell_top_y - handle_height` (line 46). -/
def handle_y (size : Int) : Int := bell_top_y size - handle_height size

/-- `rim_height = bell_height // 15` (line 53). -/
def rim_height (size : Int) : Int := bell_height size / 15

/-- `clapper_radius = bell_width // 8` (line 60). -/
def clapper_radius (size : Int) : Int := bell_width size / 8

/-- `clapper_y = bell_bottom_y + clapper_radius + rim_height * 2` (line 61). -/
def clapper_y (size : Int) : Int :=
  bell_bottom_y size + clapper_radius size + rim_height size * 2

/-- `dot_radius = size // 12` (line 68). -/
def dot_radius (size : Int) : Int := size / 12

/-- `dot_x = center_x + bell_width // 2 + dot_radius // 2` (line 69). -/
def dot_x (size : Int) : Int :=
  center_x size + bell_width size / 2 + dot_radius size / 2

/-- `dot_y = center_y - bell_height // 2 - dot_radius // 2` (line 70). -/
def dot_y (size : Int) : Int :=
  center_y size - bell_height size / 2 - dot_radius size / 2

/-- `dot_color = (239, 68, 68, 255)` (line 71). -/
def dot_color : Color := .rgba 239 68 68 255

/-- The image built by `create_notification_bell_icon` (lines 14-75): a
transparent `size`×`size` RGBA canvas and the six drawing calls in program
order — background rounded rectangle, bell body polygon, handle rectangle,
rim rectangle, clapper ellipse, notification-dot ellipse. -/
def create_notification_bell_icon (size : Int) : Img :=
  { mode := "RGBA"
    xy := (size, size)
    background := (0, 0, 0, 0)
    ops :=
      [.roundedRectangle ((0, 0), (size, size)) (corner_radius size) bg_color,
       .polygon (bell_points size) (.named "white"),
       .rectangle ((center_x size - handle_width size / 2, handle_y size),
                   (center_x size + handle_width size / 2, bell_top_y size)) (.named "white"),
       .rectangle ((bell_left_x size, bell_bottom_y size),
                   (bell_right_x size, bell_bottom_y size + rim_height size)) (.named "white"),
       .ellipse ((center_x size - clapper_radius size, clapper_y size - clapper_radius size),
                 (center_x size + clapper_radius size, clapper_y size + clapper_radius size))
         (.named "white"),
       .ellipse ((dot_x size - dot_radius size, dot_y size - dot_radius size),
                 (dot_x size + dot_radius size, dot_y size + dot_radius size)) dot_color] }

/-- Split a character list at every `'/'`, keeping empty components, as
`str.split('/')` does. -/
def splitSlash : List Char → List (List Char)
  | [] => [[]]
  | c :: rest =>
      match splitSlash rest with
      | [] => [[]]
      | h :: t => if c = '/' then [] :: h :: t else (c :: h) :: t

/-- Model of `os.path.dirname` (posixpath): take everything up to and including
the last `'/'`, then strip trailing slashes unless the result is empty or all
slashes. A path with no `'/'` has dirname `""`. -/
def dirname (p : String) : String :=
  let l := p.data
  let tl := (l.reverse.takeWhile (fun c => c ≠ '/')).reverse
  let head := l.take (l.length - tl.length)
  if head ≠ [] ∧ ¬ head.all (fun c => c = '/') then
    ⟨(head.reverse.dropWhile (fun c => c = '/')).reverse⟩
  else ⟨head⟩

/-- Resolve a path to its list of real components, dropping empty components
(produced by repeated or leading/trailing slashes) and `"."`. The empty list
denotes the current/root directory, which always exists. -/
def resolve (p : String) : List String :=
  ((splitSlash p.data).filter (fun c => !(c.isEmpty || c == ['.']))).map
    (fun c => (⟨c⟩ : String))

/-- Errors surfaced by the modelled filesystem calls. -/
inductive OSErr where
  | fileNotFound
  | fileExists
deriving DecidableEq

/-- A directory-only filesystem: the set of existing directories, each stored
as its resolved component list. -/
abbrev Fs : Type := List (List String)

/-- Model of the library call `os.makedirs(name, exist_ok=True)` (line 78) over
the directory-only filesystem: calling it on the empty string raises
`FileNotFoundError` (its inner `mkdir('')` fails and `isdir('')` is false, so
the error is re-raised despite `exist_ok`); on any other name it creates every
missing ancestor directory of `name` and succeeds, whether or not the
directory already exists. -/
def makedirs (fs : Fs) (name : String) : Except OSErr Fs :=
  if name = "" then .error .fileNotFound
  else .ok (((resolve name).inits.filter (fun d => !d.isEmpty)) ++ fs)

/-- Everything `create_notification_bell_icon` leaves behind on success: the
filesystem after directory creation, the written file (path and contents), and
the two printed confirmation lines (lines 78-81). -/
structure RenderResult where
  fsAfter : Fs
  filePath : String
  fileContent : Img
  console : List String
deriving DecidableEq

/-- Full effectful run of `create_notification_bell_icon(size, output_path)`
(lines 10-81): build the image, ensure the output directory exists (an error
there propagates and nothing is written or printed), then record the file
write and the two `print` calls. -/
def render (fs : Fs) (size : Int) (output_path : String) : Except OSErr RenderResult :=
  let img := create_notification_bell_icon size
  match makedirs fs (dirname output_path) with
  | .error e => .error e
  | .ok fs2 =>
      .ok { fsAfter := fs2
            filePath := output_path
            fileContent := img
            console := ["Icon generated: " ++ output_path,
                        "Size: " ++ toString size ++ "x" ++ toString size ++ " pixels"] }

/-- The corner points of a drawing command: both corners of a bounding box, or
all vertices of a polygon. -/
def opPoints : DrawOp → List (Int × Int)
  | .roundedRectangle (p, q) _ _ => [p, q]
  | .polygon ps _ => ps
  | .rectangle (p, q) _ => [p, q]
  | .ellipse (p, q) _ => [p, q]

/-- A point lies within the `size`×`size` canvas. -/
def inCanvas (size : Int) (p : Int × Int) : Prop :=
  0 ≤ p.1 ∧ p.1 ≤ size ∧ 0 ≤ p.2 ∧ p.2 ≤ size

theorem makedirs_ok (fs : Fs) (name : String) (h : name ≠ "") :
    makedirs fs name =
      .ok (((resolve name).inits.filter (fun d => !d.isEmpty)) ++ fs) := by
  unfold makedirs
  rw [if_neg h]

/-- C1: every computed geometry dimension at `size = 2048` equals twice its
value at `size = 1024`, up to 1 pixel of integer-division rounding. -/
theorem dimensions_scale_double :
    (corner_radius 2048 - 2 * corner_radius 1024).natAbs ≤ 1 ∧
    (bell_width 2048 - 2 * bell_width 1024).natAbs ≤ 1 ∧
    (bell_height 2048 - 2 * bell_height 1024).natAbs ≤ 1 ∧
    (handle_width 2048 - 2 * handle_width 1024).natAbs ≤ 1 ∧
    (handle_height 2048 - 2 * handle_height 1024).natAbs ≤ 1 ∧
    (rim_height 2048 - 2 * rim_height 1024).natAbs ≤ 1 ∧
    (clapper_radius 2048 - 2 * clapper_radius 1024).natAbs ≤ 1 ∧
    (dot_radius 2048 - 2 * dot_radius 1024).natAbs ≤ 1 := by
  decide

/-- C2: the renderer is deterministic — whenever two invocations with the same
`size` succeed, the written file contents are identical, whatever the output
paths and prior filesystem states were. -/
theorem render_deterministic (fs₁ fs₂ : Fs) (size : Int) (p₁ p₂ : String)
    (r₁ r₂ : RenderResult)
    (h₁ : render fs₁ size p₁ = .ok r₁) (h₂ : render fs₂ size p₂ = .ok r₂) :
    r₁.fileContent = r₂.fileContent := by
  unfold render at h₁ h₂
  split at h₁
  · exact absurd h₁ (by simp)
  · split at h₂
    · exact absurd h₂ (by simp)
    · cases h₁
      cases h₂
      rfl

theorem render_deterministic_witness :
    ∃ r₁ r₂, render [] 1024 "a/icon.png" = .ok r₁ ∧
      render [["b"]] 1024 "b/c/icon.png" = .ok r₂ ∧
      r₁.fileContent = r₂.fileContent :=
  ⟨_, _, rfl, rfl,
    render_deterministic [] [["b"]] 1024 "a/icon.png" "b/c/icon.png" _ _ rfl rfl⟩

/-- C3: for every positive `size` the canvas is exactly `size`×`size`, in RGBA
mode, initially fully transparent. -/
theorem canvas_rgba_square (size : Int) (_h : 0 < size) :
    (create_notification_bell_icon size).mode = "RGBA" ∧
    (create_notification_bell_icon size).xy = (size, size) ∧
    (create_notification_bell_icon size).background = (0, 0, 0, 0) :=
  ⟨rfl, rfl, rfl⟩

theorem canvas_rgba_square_witness :
    0 < (1024 : Int) ∧
    ((create_notification_bell_icon 1024).mode = "RGBA" ∧
     (create_notification_bell_icon 1024).xy = (1024, 1024) ∧
     (create_notification_bell_icon 1024).background = (0, 0, 0, 0)) :=
  ⟨by decide, canvas_rgba_square 1024 (by decide)⟩

/-- C4: the last drawing command is the notification dot — a filled ellipse of
radius `size / 12` in color `(239, 68, 68, 255)`, centered at the upper-right
corner of the bell's bounding box offset outward by half the dot radius in
each axis. -/
theorem notification_dot_painted_last (size : Int) :
    (create_notification_bell_icon size).ops.getLast? =
      some (.ellipse
        ((center_x size + bell_width size / 2 + (size / 12) / 2 - size / 12,
          center_y size - bell_height size / 2 - (size / 12) / 2 - size / 12),
         (center_x size + bell_width size / 2 + (size / 12) / 2 + size / 12,
          center_y size - bell_height size / 2 - (size / 12) / 2 + size / 12))
        (.rgba 239 68 68 255)) :=
  rfl

/-- C5: the clapper is the fifth drawing command — a filled circle of radius
`bell_width / 8`, horizontally centered at `center_x`, whose center sits
`clapper_radius + rim_height * 2` below the bell body's bottom edge. -/
theorem clapper_below_rim (size : Int) :
    clapper_radius size = bell_width size / 8 ∧
    clapper_y size = bell_bottom_y size + clapper_radius size + rim_height size * 2 ∧
    (create_notification_bell_icon size).ops[4]? =
      some (.ellipse
        ((center_x size - clapper_radius size, clapper_y size - clapper_radius size),
         (center_x size + clapper_radius size, clapper_y size + clapper_radius size))
        (.named "white")) :=
  ⟨rfl, rfl, rfl⟩

/-- C6: the center is `(size / 2, size / 2)`, the bell bounding box has width
and height `size / 3`, and the bell-body trapezoid's vertices are placed
relative to that center and (for positive `size`) lie within the box. -/
theorem bell_box_centered (size : Int) :
    center_x size = size / 2 ∧ center_y size = size / 2 ∧
    bell_width size = size / 3 ∧ bell_height size = size / 3 ∧
    bell_points size =
      [(center_x size - bell_width size / 3, center_y size - bell_height size / 2),
       (center_x size + bell_width size / 3, center_y size - bell_height size / 2),
       (center_x size + bell_width size / 2, center_y size + bell_height size / 4),
       (center_x size - bell_width size / 2, center_y size + bell_height size / 4)] ∧
    (0 < size → ∀ p ∈ bell_points size,
      bell_left_x size ≤ p.1 ∧ p.1 ≤ bell_right_x size ∧
      bell_top_y size ≤ p.2 ∧ p.2 ≤ center_y size + bell_height size / 2) := by
  refine ⟨rfl, rfl, rfl, rfl, rfl, ?_⟩
  intro h p hp
  simp only [bell_points, List.mem_cons, List.not_mem_nil, or_false] at hp
  rcases hp with rfl | rfl | rfl | rfl <;>
    simp only [bell_left_x, bell_right_x, bell_top_y, bell_bottom_y,
      center_x, center_y, bell_width, bell_height] <;>
    omega

theorem bell_box_centered_witness :
    0 < (1024 : Int) ∧
    ∀ p ∈ bell_points 1024,
      bell_left_x 1024 ≤ p.1 ∧ p.1 ≤ bell_right_x 1024 ∧
      bell_top_y 1024 ≤ p.2 ∧ p.2 ≤ center_y 1024 + bell_height 1024 / 2 :=
  ⟨by decide, (bell_box_centered 1024).2.2.2.2.2 (by decide)⟩

/-- C7 counterexample: the claim quantifies over every output path, but for a
bare filename — whose target directory is the current directory, which exists
in the model — the invocation fails with `FileNotFoundError`, because
`os.makedirs` is called on the empty string. -/
theorem render_fails_on_bare_filename :
    render [] 512 "bell.png" = .error .fileNotFound :=
  rfl

/-- C7 (amended): for every output path whose directory component
(`os.path.dirname`) is non-empty, the invocation succeeds whether or not the
target directory already exists; it creates the directory including all its
parents, and preserves every directory that already existed. -/
theorem render_creates_directory (fs : Fs) (size : Int) (p : String)
    (h : dirname p ≠ "") :
    ∃ r, render fs size p = .ok r ∧
      (∀ d ∈ fs, d ∈ r.fsAfter) ∧
      (∀ d ∈ (resolve (dirname p)).inits, d ≠ [] → d ∈ r.fsAfter) := by
  have hm := makedirs_ok fs (dirname p) h
  refine ⟨{ fsAfter := ((resolve (dirname p)).inits.filter (fun d => !d.isEmpty)) ++ fs,
            filePath := p,
            fileContent := create_notification_bell_icon size,
            console := ["Icon generated: " ++ p,
                        "Size: " ++ toString size ++ "x" ++ toString size ++ " pixels"] },
         ?_, ?_, ?_⟩
  · unfold render
    rw [hm]
  · intro d hd
    exact List.mem_append_right _ hd
  · intro d hd hne
    refine List.mem_append_left _ (List.mem_filter.2 ⟨hd, ?_⟩)
    simpa using hne

theorem render_creates_directory_witness :
    dirname "resources/icon.png" ≠ "" ∧
    ∃ r, render [] 1024 "resources/icon.png" = .ok r ∧
      (∀ d ∈ ([] : Fs), d ∈ r.fsAfter) ∧
      (∀ d ∈ (resolve (dirname "resources/icon.png")).inits, d ≠ [] → d ∈ r.fsAfter) :=
  ⟨by decide, render_creates_directory [] 1024 "resources/icon.png" (by decide)⟩

/-- C8: a successful invocation's only externally visible effects are the file
write at the requested path with the image determined by `size`, exactly two
confirmation lines stating the output path and the pixel dimensions, and
directory creation — the filesystem afterwards holds the old directories plus
at most ancestors of the output directory, and nothing else. -/
theorem render_effects_frame (fs : Fs) (size : Int) (p : String) (r : RenderResult)
    (h : render fs size p = .ok r) :
    r.filePath = p ∧
    r.fileContent = create_notification_bell_icon size ∧
    r.console = ["Icon generated: " ++ p,
                 "Size: " ++ toString size ++ "x" ++ toString size ++ " pixels"] ∧
    (∀ d ∈ fs, d ∈ r.fsAfter) ∧
    (∀ d ∈ r.fsAfter, d ∈ fs ∨ d ∈ (resolve (dirname p)).inits) := by
  unfold render at h
  split at h
  · exact absurd h (by simp)
  · rename_i fs2 heq
    cases h
    have hne : dirname p ≠ "" := by
      intro hd
      rw [hd] at heq
      exact absurd heq (by simp [makedirs])
    rw [makedirs_ok fs (dirname p) hne] at heq
    cases heq
    refine ⟨rfl, rfl, rfl, ?_, ?_⟩
    · intro d hd
      exact List.mem_append_right _ hd
    · intro d hd
      rcases List.mem_append.1 hd with hl | hr
      · exact Or.inr (List.mem_filter.1 hl).1
      · exact Or.inl hr

theorem render_effects_frame_witness :
    ∃ r, render [] 1024 "resources/icon.png" = .ok r ∧
      (r.filePath = "resources/icon.png" ∧
       r.fileContent = create_notification_bell_icon 1024 ∧
       r.console = ["Icon generated: " ++ "resources/icon.png",
                    "Size: " ++ toString (1024 : Int) ++ "x" ++ toString (1024 : Int) ++ " pixels"] ∧
       (∀ d ∈ ([] : Fs), d ∈ r.fsAfter) ∧
       (∀ d ∈ r.fsAfter, d ∈ ([] : Fs) ∨ d ∈ (resolve (dirname "resources/icon.png")).inits)) :=
  ⟨_, rfl, render_effects_frame [] 1024 "resources/icon.png" _ rfl⟩

/-- C9: a path with no directory component makes `os.makedirs` run on the
empty string, so the invocation fails with `FileNotFoundError` before any file
is written; with a non-empty directory component the invocation succeeds. -/
theorem render_requires_directory_component (fs : Fs) (size : Int) (p : String) :
    (dirname p = "" → render fs size p = .error .fileNotFound) ∧
    (dirname p ≠ "" → ∃ r, render fs size p = .ok r) := by
  constructor
  · intro h
    unfold render makedirs
    rw [h]
    rfl
  · intro h
    exact ⟨_, by unfold render; rw [makedirs_ok fs (dirname p) h]⟩

theorem render_requires_directory_component_witness :
    render [] 1024 "icon.png" = .error .fileNotFound ∧
    ∃ r, render [] 1024 "out/icon.png" = .ok r :=
  ⟨(render_requires_directory_component [] 1024 "icon.png").1 (by decide),
   (render_requires_directory_component [] 1024 "out/icon.png").2 (by decide)⟩

/-- C10: for every positive `size`, every drawn shape's coordinates stay
within the `size`×`size` canvas in both axes. -/
theorem shapes_within_canvas (size : Int) (h : 0 < size) :
    ∀ op ∈ (create_notification_bell_icon size).ops, ∀ p ∈ opPoints op, inCanvas size p := by
  intro op hop
  have h32 : size / 3 / 2 = size / 6 := by omega
  have h34 : size / 3 / 4 = size / 12 := by omega
  have h36 : size / 3 / 6 = size / 18 := by omega
  have h38 : size / 3 / 8 = size / 24 := by omega
  have h315 : size / 3 / 15 = size / 45 := by omega
  have h122 : size / 12 / 2 = size / 24 := by omega
  simp only [create_notification_bell_icon, List.mem_cons, List.not_mem_nil, or_false] at hop
  rcases hop with rfl | rfl | rfl | rfl | rfl | rfl <;>
    simp [opPoints, bell_points, inCanvas, corner_radius, center_x, center_y,
      bell_width, bell_height, bell_top_y, bell_bottom_y, bell_left_x, bell_right_x,
      handle_width, handle_height, handle_y, rim_height, clapper_radius, clapper_y,
      dot_radius, dot_x, dot_y] <;>
    omega

theorem shapes_within_canvas_witness :
    0 < (1024 : Int) ∧
    ∀ op ∈ (create_notification_bell_icon 1024).ops, ∀ p ∈ opPoints op, inCanvas 1024 p :=
  ⟨by decide, shapes_within_canvas 1024 (by decide)⟩

end GenerateIcon
